import Mathlib

/-!
Verification of the Answer Resolution Pipeline of the
My-University-Math-Assistant-Bot repository.

The repository delegates all symbolic mathematics to an external CAS
library (sympy).  Following the spec (§1, §6), the CAS is an external
collaborator; we embed it as a structure `CAS` bundling exactly the
operations the repository calls, each fallible operation returning
`Except String _` (a Python exception carrying its message).  The
repository's own code — `src/solver.py`, `src/explanation_generator.py`,
`frontend/streamlit_app.py`, `app.py` — is translated function by
function over that interface.
-/

/-! ### Python string primitives used by the code -/

/-- Python whitespace characters (ASCII subset), as used by `str.strip`. -/
def isSpaceChar (c : Char) : Bool :=
  c = ' ' || c = '\t' || c = '\n' || c = '\r'

/-- Model of Python `str.strip()`: drop leading and trailing whitespace. -/
def pyStrip (s : String) : String :=
  String.mk (((s.data.dropWhile isSpaceChar).reverse.dropWhile isSpaceChar).reverse)

/-- Model of Python `sep.join(parts)`. -/
def pyJoin (sep : String) : List String → String
  | [] => ""
  | [a] => a
  | a :: b :: rest => a ++ sep ++ pyJoin sep (b :: rest)

/-- Helper for `pySplitlines`: split a character list at newline
characters; a trailing newline ends the last line without opening an
empty one, as in Python. -/
def splitLinesAux (cur : List Char) : List Char → List (List Char)
  | [] => [cur.reverse]
  | c :: rest =>
    if c = '\n' then
      cur.reverse :: (if rest.isEmpty then [] else splitLinesAux [] rest)
    else splitLinesAux (c :: cur) rest

/-- Model of Python `str.splitlines()` (newline = `'\n'`):
`"".splitlines()` is `[]`, and text ending in a newline produces no
trailing empty line (`"a\n".splitlines()` is `["a"]`). -/
def pySplitlines (s : String) : List String :=
  if s.data.isEmpty then [] else (splitLinesAux [] s.data).map String.mk

/-- Helper for `containsSubstr`: does `pat` occur inside the character list? -/
def listContains (pat : List Char) : List Char → Bool
  | [] => pat.isPrefixOf ([] : List Char)
  | c :: rest => pat.isPrefixOf (c :: rest) || listContains pat rest

/-- Model of the Python membership test `pat in s` on strings. -/
def containsSubstr (s pat : String) : Bool :=
  listContains pat.data s.data

/-- Model of Python `msg.replace("\x7d", "\\\x7d")` (solver.py line 95). -/
def replaceCloseBrace (s : String) : String :=
  String.mk (s.data.foldr
    (fun c acc => if c = '\x7d' then '\\' :: c :: acc else c :: acc) [])

/-! ### The external CAS interface

The spec (§6) lists the operations the external CAS collaborator must
provide.  Every operation that can raise a Python exception is embedded
as `Except String _`; purely structural constructors and `str()` are
total. -/

structure CAS where
  Expr : Type
  /-- `sp.sympify(text)`: parse a string into an expression. -/
  sympify : String → Except String Expr
  /-- `isinstance(e, sp.Derivative)`. -/
  isDerivative : Expr → Bool
  /-- `isinstance(e, sp.Integral)`. -/
  isIntegral : Expr → Bool
  /-- `isinstance(e, sp.Equality)`. -/
  isEquality : Expr → Bool
  /-- `e.doit()`: force evaluation. -/
  doit : Expr → Except String Expr
  /-- `sp.pretty(e)`: compact textual rendering. -/
  pretty : Expr → Except String String
  /-- `sp.latex(e)`: LaTeX rendering. -/
  latex : Expr → Except String String
  /-- `getattr(e, "is_Number", False)`. -/
  isNumber : Expr → Bool
  /-- `sp.N(e)`: numeric evaluation. -/
  N : Expr → Except String Expr
  /-- `sp.simplify(e)`. -/
  simplify : Expr → Except String Expr
  /-- `str(e)`. -/
  strOf : Expr → String
  /-- `list(e.free_symbols)`: the free symbols in the CAS's internal
  iteration order (spec §9: not guaranteed stable). -/
  freeSymbols : Expr → List Expr
  /-- `sp.solve(e, dict=True)`: a list of substitution dictionaries,
  each an association list of (variable, value) pairs. -/
  solveDict : Expr → Except String (List (List (Expr × Expr)))
  /-- `sp.solve(eq, var)`: solution values for `var`. -/
  solveList : Expr → Expr → Except String (List Expr)
  /-- `sp.Eq(a, b)`. -/
  mkEq : Expr → Expr → Expr
  /-- The literal `0` as an expression (`sp.Eq(expr, 0)`). -/
  zero : Expr
  /-- `e.lhs` (of an equality). -/
  lhs : Expr → Expr
  /-- `e.rhs` (of an equality). -/
  rhs : Expr → Expr
  /-- `a - b`. -/
  sub : Expr → Expr → Expr
  /-- `sp.factor(e)`. -/
  factor : Expr → Except String Expr
  /-- Python structural equality `a == b` on expressions. -/
  exprEq : Expr → Expr → Bool

/-! ### src/solver.py -/

/-- `_sympy_to_display`, the body inside its `try` (solver.py lines 7–14):
numbers render via `str(sp.N(obj))`, everything else via `sp.pretty`
with newlines collapsed (`" ".join(line.strip() for line in
text.splitlines())`). -/
def sympyToDisplayE (C : CAS) (obj : C.Expr) : Except String String :=
  if C.isNumber obj then
    match C.N obj with
    | .error e => .error e
    | .ok n => .ok (C.strOf n)
  else
    match C.pretty obj with
    | .error e => .error e
    | .ok text => .ok (pyJoin " " ((pySplitlines text).map pyStrip))

/-- `_sympy_to_display` (solver.py lines 5–16): on any exception the
`except` clause returns `str(obj)`. -/
def sympyToDisplay (C : CAS) (obj : C.Expr) : String :=
  match sympyToDisplayE C obj with
  | .ok s => s
  | .error _ => C.strOf obj

/-- The latex parts of the Equality branch (solver.py line 54):
`sp.latex(sp.Eq(var, val))` for each (variable, value) pair, in order;
the first exception aborts the whole computation. -/
def latexEqList (C : CAS) : List (C.Expr × C.Expr) → Except String (List String)
  | [] => .ok []
  | (v, val) :: rest =>
    match C.latex (C.mkEq v val) with
    | .error e => .error e
    | .ok l =>
      match latexEqList C rest with
      | .error e => .error e
      | .ok ls => .ok (l :: ls)

/-- Flattening of the list of solution dictionaries: Python's nested
`for sol_dict in sol: for var, val in sol_dict.items()` iteration
(solver.py lines 51–52). -/
def concatAll {α : Type} : List (List α) → List α
  | [] => []
  | d :: ds => d ++ concatAll ds

/-- The body of `solve_math_problem` inside its `try`
(solver.py lines 25–90), an exception being an `Except.error` carrying
the message.  The `x, y, z = sp.symbols("x y z")` line binds locals that
nothing afterwards reads, so it has no counterpart here. -/
def solveBody (C : CAS) (problem : String) : Except String (String × String) :=
  match C.sympify problem with
  | .error e => .error e
  | .ok expr =>
    -- ---- Derivative ---- (lines 29–33)
    if C.isDerivative expr || containsSubstr problem "diff(" then
      match (if C.isDerivative expr then C.doit expr
             else match C.sympify problem with
                  | .error e => .error e
                  | .ok e2 => C.doit e2) with
      | .error e => .error e
      | .ok deriv =>
        match C.latex deriv with
        | .error e => .error e
        | .ok lx => .ok (sympyToDisplay C deriv, lx)
    -- ---- Integral ---- (lines 36–41)
    else if C.isIntegral expr || containsSubstr problem "integrate(" then
      match (if C.isIntegral expr then C.doit expr
             else match C.sympify problem with
                  | .error e => .error e
                  | .ok e2 => C.doit e2) with
      | .error e => .error e
      | .ok integral =>
        match C.latex integral with
        | .error e => .error e
        | .ok lx => .ok (sympyToDisplay C integral ++ " + C", lx ++ " + C")
    -- ---- Explicit equation Eq(...) ---- (lines 44–58)
    else if C.isEquality expr then
      match C.solveDict expr with
      | .error e => .error e
      | .ok sol =>
        if sol.isEmpty then .ok ("No solution", "\\text\x7bNo solution\x7d")
        else
          let pairs := concatAll sol
          let displayParts :=
            pairs.map (fun p => C.strOf p.1 ++ " = " ++ sympyToDisplay C p.2)
          match latexEqList C pairs with
          | .error e => .error e
          | .ok latexParts =>
            .ok (pyJoin ", " displayParts, pyJoin "\\; , \\; " latexParts)
    -- ---- Numeric / constant expression ---- (lines 61–66)
    else if (C.freeSymbols expr).isEmpty then
      match C.simplify expr with
      | .error e => .error e
      | .ok simplified =>
        match C.N simplified with
        | .error e => .error e
        | .ok numeric =>
          match C.latex numeric with
          | .error e => .error e
          | .ok lx => .ok (sympyToDisplay C numeric, lx)
    -- ---- Expression with symbols ---- (lines 69–90)
    else
      match C.freeSymbols expr with
      | [] => .error "list index out of range"
      | primaryVar :: _ =>
        match C.solveList (C.mkEq expr C.zero) primaryVar with
        | .error e => .error e
        | .ok solValues =>
          if solValues.isEmpty then
            -- fallback: simplify and show expression (lines 87–90)
            match C.simplify expr with
            | .error e => .error e
            | .ok simplified =>
              match C.latex simplified with
              | .error e => .error e
              | .ok lx => .ok (sympyToDisplay C simplified, lx)
          else
            let displayParts :=
              solValues.map (fun v => C.strOf primaryVar ++ " = " ++ sympyToDisplay C v)
            match latexEqList C (solValues.map (fun v => (primaryVar, v))) with
            | .error e => .error e
            | .ok latexParts =>
              .ok (pyJoin ", " displayParts, pyJoin "\\; , \\; " latexParts)

/-- The `except` clause of `solve_math_problem` (solver.py lines 92–96). -/
def errorPair (e : String) : String × String :=
  ("Error: " ++ e,
   "\\text\x7b" ++ replaceCloseBrace ("Error: " ++ e) ++ "\x7d")

/-- `solve_math_problem` (solver.py lines 18–96): the body under `try`,
with every exception converted by the `except` clause. -/
def solve_math_problem (C : CAS) (problem : String) : String × String :=
  match solveBody C problem with
  | .ok r => r
  | .error e => errorPair e

/-! ### src/explanation_generator.py -/

/-- The opening line of every explanation
(explanation_generator.py line 23). -/
def introLine : String :=
  "**Here's what I found — short answer first, then a quick walkthrough:**"

/-- The per-solution lines of the Equality branch
(explanation_generator.py lines 71–74): for each (variable, value) pair,
a `- Solution: <var> =` bullet followed by a `$$ ... $$` block for
`sp.Eq(var, val)`. -/
def eqSolutionLines (C : CAS) : List (C.Expr × C.Expr) → Except String (List String)
  | [] => .ok []
  | (var, val) :: rest =>
    match C.latex (C.mkEq var val) with
    | .error e => .error e
    | .ok l =>
      match eqSolutionLines C rest with
      | .error e => .error e
      | .ok ls =>
        .ok (("- Solution: " ++ C.strOf var ++ " =") :: ("$$ " ++ l ++ " $$") :: ls)

/-- The per-solution lines of the general branch
(explanation_generator.py lines 103–109): for each value, a
`- Solution:` bullet followed by a `$$ ... $$` block for
`sp.Eq(primary_var, v)`. -/
def rootSolutionLines (C : CAS) (primaryVar : C.Expr) :
    List C.Expr → Except String (List String)
  | [] => .ok []
  | v :: rest =>
    match C.latex (C.mkEq primaryVar v) with
    | .error e => .error e
    | .ok l =>
      match rootSolutionLines C primaryVar rest with
      | .error e => .error e
      | .ok ls => .ok ("- Solution:" :: ("$$ " ++ l ++ " $$") :: ls)

/-- The body of `generate_explanation` inside its `try`
(explanation_generator.py lines 17–111).  `_latex_block` is always
applied to a SymPy object at its call sites, so it is inlined as
`"$$ " ++ sp.latex(obj) ++ " $$"`.  As in the solver, the
`x, y, z = sp.symbols("x y z")` line binds unused locals. -/
def explBody (C : CAS) (problem : String) : Except String String :=
  match C.sympify problem with
  | .error e => .error e
  | .ok expr =>
    -- Numeric expression (lines 26–33)
    if (C.freeSymbols expr).isEmpty
        && !(C.isDerivative expr || C.isIntegral expr || C.isEquality expr) then
      match C.simplify expr with
      | .error e => .error e
      | .ok s0 =>
        match C.N s0 with
        | .error e => .error e
        | .ok val =>
          match C.latex val with
          | .error e => .error e
          | .ok lv =>
            .ok (pyJoin "\n\n"
              [introLine,
               "**Short answer:** " ++ C.strOf val,
               "",
               "**Walkthrough:**",
               "- I simplified the expression `" ++ problem ++ "` and evaluated it.",
               "$$ " ++ lv ++ " $$"])
    -- Derivative (lines 36–44)
    else if C.isDerivative expr || containsSubstr problem "diff(" then
      match (if C.isDerivative expr then C.doit expr
             else match C.sympify problem with
                  | .error e => .error e
                  | .ok e2 => C.doit e2) with
      | .error e => .error e
      | .ok deriv =>
        match C.pretty deriv with
        | .error e => .error e
        | .ok pd =>
          match C.latex deriv with
          | .error e => .error e
          | .ok ld =>
            .ok (pyJoin "\n\n"
              [introLine,
               "**Short answer:** " ++ pd,
               "",
               "**Walkthrough:**",
               "- You asked for the derivative of `" ++ problem ++ "`.",
               "- I applied the derivative rules and simplified the result:",
               "$$ " ++ ld ++ " $$"])
    -- Integral (lines 47–56)
    else if C.isIntegral expr || containsSubstr problem "integrate(" then
      match (if C.isIntegral expr then C.doit expr
             else match C.sympify problem with
                  | .error e => .error e
                  | .ok e2 => C.doit e2) with
      | .error e => .error e
      | .ok integral =>
        match C.pretty integral with
        | .error e => .error e
        | .ok pi0 =>
          match C.latex integral with
          | .error e => .error e
          | .ok li =>
            .ok (pyJoin "\n\n"
              [introLine,
               "**Short answer:** " ++ pi0 ++ " + C",
               "",
               "**Walkthrough:**",
               "- You requested an integral for `" ++ problem ++ "`.",
               "- I computed the antiderivative:",
               "$$ " ++ li ++ " $$",
               "- (Remember to add the constant of integration: `+ C`)"])
    -- Explicit equation Eq(...) (lines 59–75)
    else if C.isEquality expr then
      match C.simplify (C.sub (C.lhs expr) (C.rhs expr)) with
      | .error e => .error e
      | .ok canonical =>
        match C.latex (C.mkEq canonical C.zero) with
        | .error e => .error e
        | .ok lc =>
          match C.solveDict expr with
          | .error e => .error e
          | .ok sol =>
            let head :=
              [introLine,
               "**Short answer:** I solved the equation and listed the solution(s) below.",
               "",
               "**Walkthrough:**",
               "- I rewrote the equation in canonical form (left - right = 0):",
               "$$ " ++ lc ++ " $$"]
            if sol.isEmpty then
              .ok (pyJoin "\n\n" (head ++ ["- I couldn't find a solution."]))
            else
              match eqSolutionLines C (concatAll sol) with
              | .error e => .error e
              | .ok ls => .ok (pyJoin "\n\n" (head ++ ls))
    -- General symbolic expression (lines 78–111)
    else
      match C.freeSymbols expr with
      | [] => .error "list index out of range"
      | primaryVar :: _ =>
        -- inner try around factoring (lines 85–91): exceptions are
        -- swallowed; if `sp.latex(fact)` raises after the first bullet
        -- was appended, that bullet survives without its block.
        let factLines : List String :=
          match C.factor expr with
          | .error _ => []
          | .ok fact =>
            if C.exprEq fact expr then []
            else
              match C.latex fact with
              | .error _ => ["- I checked for factorization and found:"]
              | .ok lf => ["- I checked for factorization and found:", "$$ " ++ lf ++ " $$"]
        match C.latex (C.mkEq expr C.zero) with
        | .error e => .error e
        | .ok leq =>
          match C.solveList (C.mkEq expr C.zero) primaryVar with
          | .error e => .error e
          | .ok solValues =>
            let head :=
              [introLine,
               "**Short answer:** I treated this as an equation `... = 0` and tried to solve for the main variable.",
               "",
               "**Walkthrough:**",
               "- Primary variable chosen: `" ++ C.strOf primaryVar ++ "`"]
              ++ factLines
              ++ ["- I solved the equation:", "$$ " ++ leq ++ " $$"]
            if solValues.isEmpty then
              match C.simplify expr with
              | .error e => .error e
              | .ok simplified =>
                match C.latex simplified with
                | .error e => .error e
                | .ok ls =>
                  .ok (pyJoin "\n\n" (head ++
                    ["- I couldn't find algebraic roots; here is the simplified expression:",
                     "$$ " ++ ls ++ " $$"]))
            else
              match rootSolutionLines C primaryVar solValues with
              | .error e => .error e
              | .ok ls => .ok (pyJoin "\n\n" (head ++ ls))

/-- The prefix of the error message returned by `generate_explanation`
when any exception escapes its body (explanation_generator.py line 114). -/
def sorryPrefix : String :=
  "**Sorry — I couldn't generate a walkthrough.**"

/-- `generate_explanation` (explanation_generator.py lines 12–114):
the body under `try`, with every exception converted by the `except`
clause into the apology message.  Totality (the claim that no exception
ever escapes) holds by construction: the function is a total Lean
function into `String`. -/
def generate_explanation (C : CAS) (problem : String) : String :=
  match explBody C problem with
  | .ok s => s
  | .error e => sorryPrefix ++ "\n\nError: " ++ e

/-! ### frontend/streamlit_app.py -/

/-- `_is_empty` (streamlit_app.py lines 25–32) restricted to actual
strings (the `s is None` case is handled at the `PyVal` level below):
strip, then test emptiness or membership in the literal set. -/
def pyIsEmpty (s : String) : Bool :=
  let s2 := pyStrip s
  s2 = "" || s2 = "[]" || s2 = "()" || s2 = "Tuple()" || s2 = "None" || s2 = "NoneType"

/-- The display parts of `_sympy_fallback`'s solution branch
(streamlit_app.py line 61): `f"{primary} = {sp.pretty(s)}"` for each
solution, left to right; `sp.pretty` may raise. -/
def fallbackDisplayParts (C : CAS) (primary : C.Expr) :
    List C.Expr → Except String (List String)
  | [] => .ok []
  | v :: rest =>
    match C.pretty v with
    | .error e => .error e
    | .ok pv =>
      match fallbackDisplayParts C primary rest with
      | .error e => .error e
      | .ok ps => .ok ((C.strOf primary ++ " = " ++ pv) :: ps)

/-- The shared tail of `_sympy_fallback` (streamlit_app.py lines 67–69),
reached both when the expression has free symbols but `sp.solve` finds
nothing and when `vars_list` is empty: simplify and render. -/
def fallbackSimplify (C : CAS) (expr : C.Expr) : Except String (String × String) :=
  match C.simplify expr with
  | .error e => .error e
  | .ok simplified =>
    match C.pretty simplified with
    | .error e => .error e
    | .ok ps =>
      match C.latex simplified with
      | .error e => .error e
      | .ok ls => .ok (ps, ls)

/-- The body of `_sympy_fallback` inside its `try`
(streamlit_app.py lines 36–69).  Unlike the solver it renders with raw
`sp.pretty` (no newline collapsing) and has no Equality branch. -/
def sympyFallbackBody (C : CAS) (problem : String) : Except String (String × String) :=
  match C.sympify problem with
  | .error e => .error e
  | .ok expr =>
    -- derivative/integral quick handling (lines 41–47)
    if C.isDerivative expr || containsSubstr problem "diff(" then
      match (if C.isDerivative expr then C.doit expr
             else match C.sympify problem with
                  | .error e => .error e
                  | .ok e2 => C.doit e2) with
      | .error e => .error e
      | .ok deriv =>
        match C.pretty deriv with
        | .error e => .error e
        | .ok pd =>
          match C.latex deriv with
          | .error e => .error e
          | .ok ld => .ok (pd, ld)
    else if C.isIntegral expr || containsSubstr problem "integrate(" then
      match (if C.isIntegral expr then C.doit expr
             else match C.sympify problem with
                  | .error e => .error e
                  | .ok e2 => C.doit e2) with
      | .error e => .error e
      | .ok integral =>
        match C.pretty integral with
        | .error e => .error e
        | .ok pi0 =>
          match C.latex integral with
          | .error e => .error e
          | .ok li => .ok (pi0 ++ " + C", li ++ " + C")
    -- numeric expression -> evaluate (lines 50–52)
    else if (C.freeSymbols expr).isEmpty then
      match C.simplify expr with
      | .error e => .error e
      | .ok s0 =>
        match C.N s0 with
        | .error e => .error e
        | .ok val =>
          match C.pretty val with
          | .error e => .error e
          | .ok pv =>
            match C.latex val with
            | .error e => .error e
            | .ok lv => .ok (pv, lv)
    -- try to solve expr == 0 for first symbol (lines 55–65),
    -- falling through to lines 67–69 when nothing is found
    else
      match C.freeSymbols expr with
      | [] => fallbackSimplify C expr
      | primary :: _ =>
        match C.solveList (C.mkEq expr C.zero) primary with
        | .error e => .error e
        | .ok sols =>
          if sols.isEmpty then fallbackSimplify C expr
          else
            match fallbackDisplayParts C primary sols with
            | .error e => .error e
            | .ok displayParts =>
              match latexEqList C (sols.map (fun s => (primary, s))) with
              | .error e => .error e
              | .ok latexParts =>
                .ok (pyJoin ", " displayParts, pyJoin "\\; , \\; " latexParts)

/-- `_sympy_fallback` (streamlit_app.py lines 34–71): the body under
`try`, with every exception converted by the `except` clause. -/
def sympyFallback (C : CAS) (problem : String) : String × String :=
  match sympyFallbackBody C problem with
  | .ok r => r
  | .error e =>
    ("Error during fallback: " ++ e, "\\text\x7bError during fallback\x7d")

/-- The possible Python values the Solve-button handler is defensive
about (streamlit_app.py lines 87–105): a tuple/list with at least two
elements (their `str()` forms), a plain string, `None`, or some other
object carrying its `str()` form. -/
inductive PyVal where
  | tup (a b : String)
  | strv (s : String)
  | noneV
  | otherv (s : String)
deriving DecidableEq

/-- The `st.button("Solve")` handler's normalization of the solver's
return value (streamlit_app.py lines 84–111): normalize `raw` into
`(display_text, latex_text)`, then recompute `_sympy_fallback` whenever
either looks empty, adopting it only when its display is non-empty and
not empty-looking. -/
def handleSolve (C : CAS) (problem : String) (raw : PyVal) : String × String :=
  let dl : String × String :=
    match raw with
    | .tup a b => (a, b)
    | .strv s => (s, "")
    | .noneV => sympyFallback C problem
    | .otherv s =>
      if !(s = "") && !pyIsEmpty s then (s, "") else sympyFallback C problem
  if pyIsEmpty dl.1 || pyIsEmpty dl.2 then
    let fb := sympyFallback C problem
    if !(fb.1 = "") && !pyIsEmpty fb.1 then fb else dl
  else dl

/-! ### app.py (CLI) -/

/-- `str()` of a Python string inside a tuple repr (quotes added;
escaping of special characters is not modelled). -/
def pyReprStr (s : String) : String := "'" ++ s ++ "'"

/-- `str()` of a pair of strings, as `print` renders the solver's
return value: `('display', 'latex')`. -/
def pyStrOfPair (p : String × String) : String :=
  "(" ++ pyReprStr p.1 ++ ", " ++ pyReprStr p.2 ++ ")"

/-- The two lines the CLI prints (app.py lines 4–10).  Each `print`
call joins its arguments with a space, so the first line is
`"\nSolution: "` followed by the `str()` of the whole tuple returned by
`solve_math_problem`, and the second is `"\nExplanation: "` followed by
the explanation string. -/
def cliOutput (C : CAS) (problem : String) : List String :=
  ["\nSolution: " ++ pyStrOfPair (solve_math_problem C problem),
   "\nExplanation: " ++ generate_explanation C problem]

/-- The CLI output as the spec describes it (spec §6: prints
`Solution: <display>` then `Explanation: <markdown>`): the first line
carries only the display string.  Stated from the spec's words, for
comparison with `cliOutput`. -/
def cliOutputSpec (C : CAS) (problem : String) : List String :=
  ["\nSolution: " ++ (solve_math_problem C problem).1,
   "\nExplanation: " ++ generate_explanation C problem]

/-! ### The five-way shape classification (spec §4.1)

Both solver and explanation generator classify the input by a chain of
branch tests.  The two chains are transcribed here as standalone
classifiers: `solverShape` copies the branch order of
solver.py lines 29–61, `explShape` the branch order of
explanation_generator.py lines 26–59. -/

inductive Shape where
  | Derivative
  | Integral
  | Equality
  | ConstantExpression
  | ExpressionWithSymbols
deriving DecidableEq

/-- The classification implicit in `solve_math_problem`
(solver.py lines 29–61): Derivative, Integral, Equality, constant,
then symbolic. -/
def solverShape (C : CAS) (problem : String) (expr : C.Expr) : Shape :=
  if C.isDerivative expr || containsSubstr problem "diff(" then .Derivative
  else if C.isIntegral expr || containsSubstr problem "integrate(" then .Integral
  else if C.isEquality expr then .Equality
  else if (C.freeSymbols expr).isEmpty then .ConstantExpression
  else .ExpressionWithSymbols

/-- The classification implicit in `generate_explanation`
(explanation_generator.py lines 26–59): the numeric test runs first and
excludes only the three structural node kinds, not the substring
matches. -/
def explShape (C : CAS) (problem : String) (expr : C.Expr) : Shape :=
  if (C.freeSymbols expr).isEmpty
      && !(C.isDerivative expr || C.isIntegral expr || C.isEquality expr) then
    .ConstantExpression
  else if C.isDerivative expr || containsSubstr problem "diff(" then .Derivative
  else if C.isIntegral expr || containsSubstr problem "integrate(" then .Integral
  else if C.isEquality expr then .Equality
  else .ExpressionWithSymbols

/-! ### A concrete CAS instance

Modelled from the spec: the external CAS library (sympy) is not part of
the repository, so a small concrete instance is built here from the
behaviors the spec records for it (§6 operation list, §8 worked
examples: `"2+2"` evaluates to the number 4 rendered `"4"`,
`sympify` evaluates applied `diff(...)`/`integrate(...)` calls, an
unparsable input raises).  It is used to instantiate the parametric
theorems at concrete inputs. -/

inductive SExpr where
  | num (n : Int)
  | sym (s : String)
  | node0 (head : String)
  | node1 (head : String) (a : SExpr)
  | node2 (head : String) (a b : SExpr)
deriving DecidableEq

/-- The head tag of a toy expression, if it is an applied node. -/
def SExpr.headOf : SExpr → Option String
  | .num _ => none
  | .sym _ => none
  | .node0 h => some h
  | .node1 h _ => some h
  | .node2 h _ _ => some h

/-- Modelled from the spec: `str()` on the toy expressions. -/
def toyStrOf : SExpr → String
  | .num n => if n = 0 then "0" else if n = 4 then "4" else "n"
  | .sym _ => "x"
  | _ => "expr"

/-- Modelled from the spec: `sp.pretty` on the toy expressions. -/
def toyPretty : SExpr → String
  | .num n => if n = 0 then "0" else if n = 4 then "4" else "n"
  | .sym _ => "x"
  | e => if e.headOf = some "xc3" then "x**3/3" else "E"

/-- Modelled from the spec: `sp.latex` on the toy expressions. -/
def toyLatex : SExpr → String
  | .num n => if n = 0 then "0" else if n = 4 then "4" else "n"
  | .sym _ => "x"
  | e => if e.headOf = some "xc3" then "x^3/3" else "L"

/-- Modelled from the spec: the parsed antiderivative of
`integrate(x**2, x)` (spec §8: `x**3/3`). -/
def xc3 : SExpr := .node0 "xc3"

/-- Modelled from the spec: the parsed form of `Eq(exp(x), 0)`, an
equation with no solution. -/
def eqNoSol : SExpr := .node2 "Eq" (.node1 "exp" (.sym "x")) (.num 0)

/-- Modelled from the spec: the external CAS on the handful of concrete
inputs the spec documents.  `sympify` evaluates eagerly (so
`diff(2, x)` parses to the plain number `0`, not a Derivative node),
solving yields no solutions, and every structural operation is a plain
constructor. -/
def toyCAS : CAS where
  Expr := SExpr
  sympify := fun s =>
    if s = "2+2" then .ok (.num 4)
    else if s = "diff(2, x)" then .ok (.num 0)
    else if s = "integrate(x**2, x)" then .ok xc3
    else if s = "Eq(exp(x), 0)" then .ok eqNoSol
    else .error "Sympify error"
  isDerivative := fun e => e.headOf = some "Derivative"
  isIntegral := fun e => e.headOf = some "Integral"
  isEquality := fun e => e.headOf = some "Eq"
  doit := fun e => .ok e
  pretty := fun e => .ok (toyPretty e)
  latex := fun e => .ok (toyLatex e)
  isNumber := fun e => match e with
    | .num _ => true
    | _ => false
  N := fun e => .ok e
  simplify := fun e => .ok e
  strOf := toyStrOf
  freeSymbols := fun e => match e with
    | .num _ => []
    | .sym s => [.sym s]
    | _ => [.sym "x"]
  solveDict := fun _ => .ok []
  solveList := fun _ _ => .ok []
  mkEq := fun a b => .node2 "Eq" a b
  zero := .num 0
  lhs := fun e => match e with
    | .node2 "Eq" a _ => a
    | e => e
  rhs := fun e => match e with
    | .node2 "Eq" _ b => b
    | e => e
  sub := fun a b => .node2 "Sub" a b
  factor := fun e => .ok e
  exprEq := fun a b => decide (a = b)

example : solve_math_problem toyCAS "2+2" = ("4", "4") := by decide
example : solve_math_problem toyCAS "(" =
    ("Error: Sympify error", "\\text\x7bError: Sympify error\x7d") := by decide
example : solverShape toyCAS "diff(2, x)" (SExpr.num 0) = Shape.Derivative := by decide
example : explShape toyCAS "diff(2, x)" (SExpr.num 0) = Shape.ConstantExpression := by decide
example : solve_math_problem toyCAS "Eq(exp(x), 0)" =
    ("No solution", "\\text\x7bNo solution\x7d") := by decide
example : solve_math_problem toyCAS "integrate(x**2, x)" =
    ("x**3/3 + C", "x^3/3 + C") := by decide
example : handleSolve toyCAS "2+2" (PyVal.strv "hello") = ("4", "4") := by decide

/-! ### Helper lemmas about the string primitives -/

theorem append_ne_left {a : String} (b : String) (h : a ≠ "") : a ++ b ≠ "" := by
  intro hc
  apply h
  have hd := congrArg String.data hc
  rw [String.data_append] at hd
  have ha : a.data = [] := (List.append_eq_nil.mp hd).1
  exact String.ext (by rw [ha])

theorem append_ne_right (a : String) {b : String} (h : b ≠ "") : a ++ b ≠ "" := by
  intro hc
  apply h
  have hd := congrArg String.data hc
  rw [String.data_append] at hd
  have hb : b.data = [] := (List.append_eq_nil.mp hd).2
  exact String.ext (by rw [hb])

theorem pyJoin_cons_ne (sep a : String) (rest : List String) (h : a ≠ "") :
    pyJoin sep (a :: rest) ≠ "" := by
  cases rest with
  | nil => exact h
  | cons b t => exact append_ne_left _ (append_ne_left _ h)

/-! ### Sanity assumptions on the external CAS

The spec's invariant that `display` is always populated (spec §3,
AnswerResult) can only hold if the external renderers produce visible
text; sympy's `str`, `pretty` and `solve` do.  These are the
assumptions, stated about the embedded interface. -/

structure SaneCAS (C : CAS) : Prop where
  strOf_ne : ∀ e, C.strOf e ≠ ""
  pretty_ne : ∀ e s, C.pretty e = Except.ok s →
    pyJoin " " ((pySplitlines s).map pyStrip) ≠ ""
  solveDict_ne : ∀ e ds, C.solveDict e = Except.ok ds → ∀ d ∈ ds, d ≠ []

theorem sympyToDisplay_ne {C : CAS} (hs : SaneCAS C) (obj : C.Expr) :
    sympyToDisplay C obj ≠ "" := by
  unfold sympyToDisplay sympyToDisplayE
  split
  · rename_i s heq
    split at heq
    · split at heq
      · exact Except.noConfusion heq
      · rename_i n hn
        injection heq with h
        rw [← h]
        exact hs.strOf_ne n
    · split at heq
      · exact Except.noConfusion heq
      · rename_i text ht
        injection heq with h
        rw [← h]
        exact hs.pretty_ne _ _ ht
  · exact hs.strOf_ne obj

theorem solveBody_ok_fst_ne {C : CAS} (hs : SaneCAS C) {p : String}
    {r : String × String} (h : solveBody C p = Except.ok r) : r.1 ≠ "" := by
  unfold solveBody at h
  split at h
  · exact Except.noConfusion h
  rename_i expr hexpr
  split at h
  · -- Derivative branch
    split at h
    · exact Except.noConfusion h
    rename_i deriv hderiv
    split at h
    · exact Except.noConfusion h
    rename_i lx hlx
    injection h with h
    rw [← h]
    exact sympyToDisplay_ne hs deriv
  split at h
  · -- Integral branch
    split at h
    · exact Except.noConfusion h
    rename_i integral hintegral
    split at h
    · exact Except.noConfusion h
    rename_i lx hlx
    injection h with h
    rw [← h]
    exact append_ne_right _ (by decide)
  split at h
  · -- Equality branch
    split at h
    · exact Except.noConfusion h
    rename_i sol hsol
    split at h
    · injection h with h
      rw [← h]
      decide
    rename_i hne
    simp only [] at h
    split at h
    · exact Except.noConfusion h
    rename_i latexParts hlatex
    injection h with h
    rw [← h]
    show pyJoin ", " ((concatAll sol).map _) ≠ ""
    cases sol with
    | nil => simp at hne
    | cons d ds =>
      have hd : d ≠ [] := hs.solveDict_ne _ _ hsol d (List.mem_cons_self d ds)
      cases d with
      | nil => exact absurd rfl hd
      | cons pr prs =>
        show pyJoin ", "
          ((C.strOf pr.1 ++ " = " ++ sympyToDisplay C pr.2) :: _) ≠ ""
        exact pyJoin_cons_ne _ _ _ (append_ne_left _ (append_ne_left _ (hs.strOf_ne _)))
  split at h
  · -- Constant branch
    split at h
    · exact Except.noConfusion h
    rename_i simplified hsimp
    split at h
    · exact Except.noConfusion h
    rename_i numeric hnum
    split at h
    · exact Except.noConfusion h
    rename_i lx hlx
    injection h with h
    rw [← h]
    exact sympyToDisplay_ne hs numeric
  · -- Expression-with-symbols branch
    split at h
    · exact Except.noConfusion h
    rename_i primaryVar rest hvars
    split at h
    · exact Except.noConfusion h
    rename_i solValues hsolv
    split at h
    · -- no solutions: simplify-and-show fallback
      split at h
      · exact Except.noConfusion h
      rename_i simplified hsimp
      split at h
      · exact Except.noConfusion h
      rename_i lx hlx
      injection h with h
      rw [← h]
      exact sympyToDisplay_ne hs simplified
    · rename_i hne
      simp only [] at h
      split at h
      · exact Except.noConfusion h
      rename_i latexParts hlatex
      injection h with h
      rw [← h]
      show pyJoin ", " (solValues.map _) ≠ ""
      cases solValues with
      | nil => simp at hne
      | cons v vs =>
        show pyJoin ", "
          ((C.strOf primaryVar ++ " = " ++ sympyToDisplay C v) :: _) ≠ ""
        exact pyJoin_cons_ne _ _ _ (append_ne_left _ (append_ne_left _ (hs.strOf_ne _)))

theorem solve_fst_ne {C : CAS} (hs : SaneCAS C) (p : String) :
    (solve_math_problem C p).1 ≠ "" := by
  unfold solve_math_problem
  split
  · rename_i r hr
    exact solveBody_ok_fst_ne hs hr
  · rename_i e he
    exact append_ne_left _ (by decide)

theorem toyStrOf_ne (e : SExpr) : toyStrOf e ≠ "" := by
  cases e with
  | num n =>
    unfold toyStrOf
    by_cases h0 : n = 0
    · simp [h0]
    · by_cases h4 : n = 4 <;> simp [h0, h4]
  | sym s => exact (by decide : ("x" : String) ≠ "")
  | node0 h => exact (by decide : ("expr" : String) ≠ "")
  | node1 h a => exact (by decide : ("expr" : String) ≠ "")
  | node2 h a b => exact (by decide : ("expr" : String) ≠ "")

theorem toyPretty_collapse_ne (e : SExpr) :
    pyJoin " " ((pySplitlines (toyPretty e)).map pyStrip) ≠ "" := by
  cases e with
  | num n =>
    unfold toyPretty
    by_cases h0 : n = 0
    · simp only [h0, if_pos]
      decide
    · by_cases h4 : n = 4
      · simp only [h0, h4, if_neg, if_pos, reduceIte]
        decide
      · simp only [h0, h4, if_neg, reduceIte]
        decide
  | sym s => exact (by decide :
      pyJoin " " ((pySplitlines "x").map pyStrip) ≠ "")
  | node0 h =>
    unfold toyPretty SExpr.headOf
    by_cases hx : h = "xc3" <;> simp only [hx, reduceIte] <;> first
      | decide
      | (simp only [Option.some.injEq, if_neg hx]; decide)
  | node1 h a =>
    unfold toyPretty SExpr.headOf
    by_cases hx : h = "xc3" <;> simp only [hx, reduceIte] <;> first
      | decide
      | (simp only [Option.some.injEq, if_neg hx]; decide)
  | node2 h a b =>
    unfold toyPretty SExpr.headOf
    by_cases hx : h = "xc3" <;> simp only [hx, reduceIte] <;> first
      | decide
      | (simp only [Option.some.injEq, if_neg hx]; decide)

theorem toyCAS_sane : SaneCAS toyCAS where
  strOf_ne := toyStrOf_ne
  pretty_ne := by
    intro e s h
    injection h with h
    rw [← h]
    exact toyPretty_collapse_ne e
  solveDict_ne := by
    intro e ds h
    injection h with h
    rw [← h]
    intro d hd
    simp at hd

/-! ### The claims -/

/-- C1: every exception raised inside `solve_math_problem`'s body is
caught at the outermost boundary and converted into the pair whose
display is `"Error: <message>"` and whose latex is that text wrapped in
`\text{...}` with closing braces escaped; no exception propagates (the
embedding returns a plain pair of strings for every input, so totality
holds by the type of `solve_math_problem`). -/
theorem solver_catches_all_exceptions (C : CAS) (p e : String)
    (h : solveBody C p = Except.error e) :
    solve_math_problem C p =
      ("Error: " ++ e,
       "\\text\x7b" ++ replaceCloseBrace ("Error: " ++ e) ++ "\x7d") := by
  unfold solve_math_problem
  rw [h]
  rfl

theorem solver_catches_all_exceptions_witness :
    solve_math_problem toyCAS "(" =
      ("Error: " ++ "Sympify error",
       "\\text\x7b" ++ replaceCloseBrace ("Error: " ++ "Sympify error") ++ "\x7d") :=
  solver_catches_all_exceptions toyCAS "(" "Sympify error" rfl

/-- C2: on every input — the error path included — at least one of the
two returned strings is non-empty, and for a non-empty input the parser
accepts, the display component of `solve_math_problem` is non-empty.
The external renderers are assumed to produce visible text (`SaneCAS`),
which real sympy does. -/
theorem solve_display_nonempty (C : CAS) (hs : SaneCAS C) (p : String) :
    ((solve_math_problem C p).1 ≠ "" ∨ (solve_math_problem C p).2 ≠ "") ∧
    (p ≠ "" → (∃ expr, C.sympify p = Except.ok expr) →
      (solve_math_problem C p).1 ≠ "") :=
  ⟨Or.inl (solve_fst_ne hs p), fun _ _ => solve_fst_ne hs p⟩

theorem solve_display_nonempty_witness :
    ((solve_math_problem toyCAS "2+2").1 ≠ "" ∨
      (solve_math_problem toyCAS "2+2").2 ≠ "") ∧
    (solve_math_problem toyCAS "2+2").1 ≠ "" :=
  ⟨(solve_display_nonempty toyCAS toyCAS_sane "2+2").1,
   (solve_display_nonempty toyCAS toyCAS_sane "2+2").2 (by decide)
     ⟨SExpr.num 4, rfl⟩⟩

/-- C3 counterexample: on the input `"diff(2, x)"` — which the CAS
parses eagerly to the plain number 0 — `solve_math_problem`'s branch
order classifies it as Derivative (textual match), while
`generate_explanation`'s numeric-first branch order classifies it as
ConstantExpression, so the two functions do not share one priority
order with Derivative first. -/
theorem shape_divergence_diff_constant :
    toyCAS.sympify "diff(2, x)" = Except.ok (SExpr.num 0) ∧
    solverShape toyCAS "diff(2, x)" (SExpr.num 0) = Shape.Derivative ∧
    explShape toyCAS "diff(2, x)" (SExpr.num 0) = Shape.ConstantExpression ∧
    Shape.Derivative ≠ Shape.ConstantExpression :=
  ⟨rfl, by decide, by decide, by decide⟩

/-- C3 amended: the two classifications agree except when the parsed
expression has no free symbols, is structurally none of
Derivative/Integral/Equality, and the raw text contains `"diff("` or
`"integrate("`; there the solver routes to Derivative/Integral by the
textual match while the explanation generator's numeric check (which
runs first and only excludes the three structural node kinds) routes to
ConstantExpression. -/
theorem classifiers_agree_outside_textual_constant (C : CAS) (p : String)
    (expr : C.Expr)
    (h : ¬((C.freeSymbols expr).isEmpty = true ∧
           C.isDerivative expr = false ∧ C.isIntegral expr = false ∧
           C.isEquality expr = false ∧
           (containsSubstr p "diff(" = true ∨
             containsSubstr p "integrate(" = true))) :
    solverShape C p expr = explShape C p expr := by
  unfold solverShape explShape
  cases hf : (C.freeSymbols expr).isEmpty <;>
    cases hd : C.isDerivative expr <;>
    cases hi : C.isIntegral expr <;>
    cases he : C.isEquality expr <;>
    cases h1 : containsSubstr p "diff(" <;>
    cases h2 : containsSubstr p "integrate(" <;>
    simp_all

theorem classifiers_agree_outside_textual_constant_witness :
    solverShape toyCAS "2+2" (SExpr.num 4) = explShape toyCAS "2+2" (SExpr.num 4) :=
  classifiers_agree_outside_textual_constant toyCAS "2+2" (SExpr.num 4) (by decide)

/-- C4: when the input is classified as Integral (structurally or by
the `"integrate("` substring) and the body finishes without an
exception, both returned strings end in the literal suffix `" + C"`. -/
theorem integral_suffix_plus_C (C : CAS) (p : String) (expr : C.Expr)
    (r : String × String)
    (hsym : C.sympify p = Except.ok expr)
    (hd : (C.isDerivative expr || containsSubstr p "diff(") = false)
    (hi : (C.isIntegral expr || containsSubstr p "integrate(") = true)
    (hok : solveBody C p = Except.ok r) :
    solve_math_problem C p = r ∧
    (∃ a, r.1 = a ++ " + C") ∧ (∃ b, r.2 = b ++ " + C") := by
  refine ⟨by unfold solve_math_problem; rw [hok], ?_⟩
  unfold solveBody at hok
  rw [hsym] at hok
  simp only [hd, hi, Bool.false_eq_true, if_false, if_true] at hok
  split at hok
  · exact Except.noConfusion hok
  rename_i integral hintegral
  split at hok
  · exact Except.noConfusion hok
  rename_i lx hlx
  injection hok with hok
  rw [← hok]
  exact ⟨⟨_, rfl⟩, ⟨_, rfl⟩⟩

theorem integral_suffix_plus_C_witness :
    solve_math_problem toyCAS "integrate(x**2, x)" = ("x**3/3 + C", "x^3/3 + C") ∧
    (∃ a, ("x**3/3 + C", "x^3/3 + C").1 = a ++ " + C") ∧
    (∃ b, ("x**3/3 + C", "x^3/3 + C").2 = b ++ " + C") :=
  integral_suffix_plus_C toyCAS "integrate(x**2, x)" xc3
    ("x**3/3 + C", "x^3/3 + C") rfl (by decide) (by decide) rfl

/-- C5: an input parsing to an equality for which the solver finds no
solution yields exactly the pair
`("No solution", "\text{No solution}")`. -/
theorem equality_no_solution_pair (C : CAS) (p : String) (expr : C.Expr)
    (hsym : C.sympify p = Except.ok expr)
    (hd : (C.isDerivative expr || containsSubstr p "diff(") = false)
    (hi : (C.isIntegral expr || containsSubstr p "integrate(") = false)
    (he : C.isEquality expr = true)
    (hsol : C.solveDict expr = Except.ok []) :
    solve_math_problem C p = ("No solution", "\\text\x7bNo solution\x7d") := by
  unfold solve_math_problem solveBody
  rw [hsym]
  simp only [hd, hi, he, hsol, Bool.false_eq_true, if_false, if_true]
  rfl

theorem equality_no_solution_pair_witness :
    solve_math_problem toyCAS "Eq(exp(x), 0)" =
      ("No solution", "\\text\x7bNo solution\x7d") :=
  equality_no_solution_pair toyCAS "Eq(exp(x), 0)" eqNoSol rfl
    (by decide) (by decide) (by decide) rfl

/-- C6: whenever the raw input contains the substring `"diff("` and
parsing succeeds, the solver takes the Derivative handler path — the
parsed expression is force-evaluated (`doit`) and rendered — even if
the expression is not structurally a derivative node. -/
theorem diff_substring_takes_derivative_path (C : CAS) (p : String)
    (expr : C.Expr)
    (hsym : C.sympify p = Except.ok expr)
    (hdiff : containsSubstr p "diff(" = true) :
    solverShape C p expr = Shape.Derivative ∧
    solveBody C p =
      (match (if C.isDerivative expr then C.doit expr
              else match C.sympify p with
                   | .error e => .error e
                   | .ok e2 => C.doit e2) with
       | .error e => .error e
       | .ok deriv =>
         match C.latex deriv with
         | .error e => .error e
         | .ok lx => .ok (sympyToDisplay C deriv, lx)) := by
  constructor
  · unfold solverShape
    rw [hdiff]
    simp
  · unfold solveBody
    rw [hsym, hdiff]
    simp

theorem diff_substring_takes_derivative_path_witness :
    solverShape toyCAS "diff(2, x)" (SExpr.num 0) = Shape.Derivative ∧
    solveBody toyCAS "diff(2, x)" = Except.ok ("0", "0") := by
  have h := diff_substring_takes_derivative_path toyCAS "diff(2, x)"
    (SExpr.num 0) rfl (by decide)
  exact ⟨h.1, h.2.trans (by rfl)⟩

/-- C7: the input `"2+2"` takes the ConstantExpression path and returns
display `"4"` and latex `"4"` (the CAS behavior on this input is the
spec's worked example §8). -/
theorem two_plus_two_constant_path :
    toyCAS.sympify "2+2" = Except.ok (SExpr.num 4) ∧
    solverShape toyCAS "2+2" (SExpr.num 4) = Shape.ConstantExpression ∧
    solve_math_problem toyCAS "2+2" = ("4", "4") :=
  ⟨rfl, by decide, by decide⟩

/-- C8 counterexample: the solver returning the single non-empty,
non-empty-looking string `"hello"` is, per the claim, not a case where
the fallback is recomputed — the claimed behavior is to use it as the
display with empty latex — yet the handler returns the fallback's
`("4", "4")` instead, because the empty normalized latex triggers the
final recomputation check. -/
theorem ui_fallback_single_string_cex :
    pyIsEmpty "hello" = false ∧
    handleSolve toyCAS "2+2" (PyVal.strv "hello") = ("4", "4") ∧
    handleSolve toyCAS "2+2" (PyVal.strv "hello") ≠ ("hello", "") := by
  decide

/-- C8 amended: after normalizing the raw value into
`(display, latex)` — a pair contributing both strings, a single string
contributing `(s, "")` — the wrapper recomputes its local fallback
exactly when either normalized component is empty-looking (so in
particular for every single-string return, whose latex is empty), and
adopts the fallback only when the fallback's display is non-empty and
not empty-looking; otherwise the normalized strings are kept. -/
theorem ui_fallback_trigger_characterization (C : CAS) (p a b s : String) :
    handleSolve C p (PyVal.tup a b) =
      (if pyIsEmpty a || pyIsEmpty b then
        (if !((sympyFallback C p).1 = "") && !pyIsEmpty (sympyFallback C p).1
         then sympyFallback C p else (a, b))
       else (a, b)) ∧
    handleSolve C p (PyVal.strv s) =
      (if !((sympyFallback C p).1 = "") && !pyIsEmpty (sympyFallback C p).1
       then sympyFallback C p else (s, "")) := by
  have h0 : pyIsEmpty "" = true := by decide
  constructor
  · unfold handleSolve
    rfl
  · unfold handleSolve
    simp only [h0, Bool.or_true, if_true]

/-- C9 counterexample: on the input `"2+2"` the CLI's first line is
`"\nSolution: ('4', '4')"` — the `str()` of the whole returned pair —
not `"\nSolution: "` followed by the display string `"4"` as the claim
states, so the printed CLI output differs from the spec's description
`cliOutputSpec`. -/
theorem cli_prints_pair_cex :
    cliOutput toyCAS "2+2" ≠ cliOutputSpec toyCAS "2+2" ∧
    (cliOutput toyCAS "2+2").get? 0 = some "\nSolution: ('4', '4')" ∧
    (solve_math_problem toyCAS "2+2").1 = "4" := by
  refine ⟨?_, rfl, by decide⟩
  intro h
  have h0 := congrArg (fun l => List.get? l 0) h
  simp only [cliOutput, cliOutputSpec, List.get?] at h0
  exact absurd h0 (by decide)

/-- C9 amended: the CLI prints two lines, `"\nSolution: "` followed by
the `str()` of the whole `(display, latex)` pair returned by the
solver, then `"\nExplanation: "` followed by the Markdown explanation
string; the Explanation line agrees with the spec's description, the
Solution line carries the pair rather than the bare display string. -/
theorem cli_output_lines (C : CAS) (p : String) :
    cliOutput C p =
      ["\nSolution: " ++ pyStrOfPair (solve_math_problem C p),
       "\nExplanation: " ++ generate_explanation C p] ∧
    (cliOutput C p).get? 1 = (cliOutputSpec C p).get? 1 :=
  ⟨rfl, rfl⟩

/-- C10: `generate_explanation` is total by the type of the embedding
(every exception becomes an error value of `explBody`), and whenever
its body raises, the returned string is the literal apology prefix
followed by `"\n\nError: "` and the exception message. -/
theorem explanation_error_prefix (C : CAS) (p e : String)
    (h : explBody C p = Except.error e) :
    ∃ rest, generate_explanation C p = sorryPrefix ++ rest ∧
      rest = "\n\nError: " ++ e := by
  refine ⟨"\n\nError: " ++ e, ?_, rfl⟩
  unfold generate_explanation
  rw [h]
  exact String.append_assoc _ _ _

theorem explanation_error_prefix_witness :
    ∃ rest, generate_explanation toyCAS "(" = sorryPrefix ++ rest ∧
      rest = "\n\nError: " ++ "Sympify error" :=
  explanation_error_prefix toyCAS "(" "Sympify error" rfl
